import Mathlib

/-!
Verification development for the docker-cr checkpoint/restore orchestrator.

The Go source is shallowly embedded: filesystem and process inspection are
modelled by an explicit environment (`ProcEnv`), the CRIU engine by an
`EngineEnv`, and each Go function by a pure Lean function over those
environments.  Machine integers are modelled as `Int`/`Nat`; Go functions
returning `error` are modelled with `Except String`.
-/

namespace DockerCR

/-! ## String helpers (embeddings of the Go standard-library calls used) -/

/-- First index of character `t` in the list, scanning left to right
(embedding of `strings.Index(s, t)` for a one-character pattern;
`none` corresponds to Go's `-1`). -/
def charIndexAux : List Char → Char → Nat → Option Nat
  | [], _, _ => none
  | c :: cs, t, i => if c = t then some i else charIndexAux cs t (i + 1)

def charIndexOf (l : List Char) (t : Char) : Option Nat :=
  charIndexAux l t 0

/-- Last index of character `t` (embedding of `strings.LastIndex` for a
one-character pattern). -/
def charLastIndexAux : List Char → Char → Nat → Option Nat → Option Nat
  | [], _, _, best => best
  | c :: cs, t, i, best =>
      charLastIndexAux cs t (i + 1) (if c = t then some i else best)

def charLastIndex (l : List Char) (t : Char) : Option Nat :=
  charLastIndexAux l t 0 none

/-- Split on runs of whitespace, dropping empty fields
(embedding of `strings.Fields`). -/
def fieldsAux : List Char → List Char → List String
  | [], acc => if acc = [] then [] else [String.mk acc.reverse]
  | c :: cs, acc =>
      if c.isWhitespace then
        if acc = [] then fieldsAux cs []
        else String.mk acc.reverse :: fieldsAux cs []
      else fieldsAux cs (c :: acc)

def goFields (l : List Char) : List String :=
  fieldsAux l []

/-- Split on a separator character, keeping empty segments
(embedding of `strings.Split(s, sep)` for a one-character separator). -/
def splitKeep (sep : Char) : List Char → List (List Char)
  | [] => [[]]
  | c :: cs =>
      if c = sep then [] :: splitKeep sep cs
      else
        match splitKeep sep cs with
        | [] => [[c]]
        | l :: ls => (c :: l) :: ls

/-- `line` starts with `pat` (used to embed Go's `line[:n] == pat` checks,
which in the source are always guarded by `len(line) > n`). -/
def startsWithL : List Char → List Char → Bool
  | _, [] => true
  | [], _ :: _ => false
  | c :: cs, p :: ps => if c = p then startsWithL cs ps else false

/-- Value of a hexadecimal digit (embedding of the digit handling inside
`strconv.ParseUint(s, 16, 32)`). -/
def hexDigitVal? (c : Char) : Option Nat :=
  if '0' ≤ c ∧ c ≤ '9' then some (c.toNat - '0'.toNat)
  else if 'a' ≤ c ∧ c ≤ 'f' then some (c.toNat - 'a'.toNat + 10)
  else if 'A' ≤ c ∧ c ≤ 'F' then some (c.toNat - 'A'.toNat + 10)
  else none

def parseHexAux : List Char → Nat → Option Nat
  | [], acc => some acc
  | c :: cs, acc =>
      match hexDigitVal? c with
      | none => none
      | some d => parseHexAux cs (acc * 16 + d)

/-- Embedding of `strconv.ParseUint(s, 16, 32)`: `none` on the empty string,
on a non-hex character, or on overflow past 32 bits (Go reports an error in
each of those cases, and the call sites skip the entry on error). -/
def parseHexU32 (s : String) : Option Nat :=
  match s.toList with
  | [] => none
  | cs => (parseHexAux cs 0).bind fun n => if n < 2 ^ 32 then some n else none

/-- Value of a decimal digit (part of `strconv.Atoi`). -/
def decDigitVal? (c : Char) : Option Nat :=
  if '0' ≤ c ∧ c ≤ '9' then some (c.toNat - '0'.toNat) else none

def decDigitsVal? : List Char → Nat → Option Nat
  | [], acc => some acc
  | c :: cs, acc =>
      match decDigitVal? c with
      | none => none
      | some d => decDigitsVal? cs (acc * 10 + d)

/-- Embedding of `strconv.Atoi` (64-bit overflow is not modelled; the PIDs
involved are far below it). -/
def goAtoi? (s : String) : Option Int :=
  match s.toList with
  | [] => none
  | c :: cs =>
      if c = '+' then
        match cs with
        | [] => none
        | _ => (decDigitsVal? cs 0).map Int.ofNat
      else if c = '-' then
        match cs with
        | [] => none
        | _ => (decDigitsVal? cs 0).map fun n => -(n : Int)
      else (decDigitsVal? (c :: cs) 0).map Int.ofNat

/-- Decimal rendering used by `fmt.Sprintf("%d", n)` for a non-negative
value; fuel-based so that it reduces by evaluation (the fuel `n` is enough
because the argument shrinks by a factor of 10 each step). -/
def toDecDigitsAux : Nat → Nat → List Char
  | 0, _ => []
  | _ + 1, 0 => []
  | fuel + 1, n + 1 =>
      toDecDigitsAux fuel ((n + 1) / 10) ++ [Nat.digitChar ((n + 1) % 10)]

def toDecList (n : Nat) : List Char :=
  if n = 0 then ['0'] else toDecDigitsAux n n

def natToDecimal (n : Nat) : String :=
  String.mk (toDecList n)

/-- `Except` result is a success. -/
def isOkE {ε α : Type} : Except ε α → Bool
  | .ok _ => true
  | .error _ => false

/-! ## Process probe (src/process.go) -/

/-- Read-only view of everything `process.go` inspects about one process:
the `/proc/<pid>` entries and the pgid/sid syscall results.  A `none`
content models an unreadable file, `statExists = false` models
`os.Stat("/proc/<pid>/stat")` reporting not-exist. -/
structure ProcEnv where
  pid : Int
  statExists : Bool
  statContent : Option String
  cmdline : Option String
  fdLinks : Option (List String)
  tcpContent : Option String
  tcp6Content : Option String
  unixContent : Option String
  pgid : Int
  sid : Int

/-- `ProcessInfo` from process.go. -/
structure ProcessInfo where
  pid : Int
  hasTCP : Bool := false
  hasUnixSockets : Bool := false
  hasPipes : Bool := false
  hasEventfd : Bool := false
  hasSignalfd : Bool := false
  hasTimerfd : Bool := false
  processName : String := ""
  state : String := ""
deriving DecidableEq

/-- State decoding of `getProcessState` (process.go:53-91): locate the
parenthesised comm field, take the first whitespace field after it and map
the one-letter state code.  (Go slices `statStr[endParen+2:]` by byte; the
list `drop` is the same on the well-formed stat lines involved and total on
short ones.) -/
def decodeStatState (statStr : String) : String :=
  let cs := statStr.toList
  match charIndexOf cs '(', charLastIndex cs ')' with
  | some sp, some ep =>
      if sp < ep then
        match goFields (cs.drop (ep + 2)) with
        | [] => "unknown"
        | st :: _ =>
            if st = "R" then "running"
            else if st = "S" then "sleeping"
            else if st = "D" then "disk sleep"
            else if st = "Z" then "zombie"
            else if st = "T" then "stopped"
            else if st = "t" then "tracing stop"
            else if st = "X" then "dead"
            else st
      else "unknown"
  | _, _ => "unknown"

/-- `getProcessState` (process.go:53-91): unreadable stat file degrades to
"unknown". -/
def getProcessState (env : ProcEnv) : String :=
  match env.statContent with
  | none => "unknown"
  | some s => decodeStatState s

/-- `getProcessName` (process.go:93-107): first NUL-separated component of
`/proc/<pid>/cmdline`, empty string when unreadable. -/
def getProcessName (env : ProcEnv) : String :=
  match env.cmdline with
  | none => ""
  | some s =>
      match splitKeep (Char.ofNat 0) s.toList with
      | [] => ""
      | p :: _ => String.mk p

/-- One iteration of the fd-scanning loop in `checkFileDescriptors`
(process.go:116-134). -/
def fdStep (info : ProcessInfo) (t : String) : ProcessInfo :=
  if t.startsWith "pipe:" then { info with hasPipes := true }
  else if t.startsWith "socket:" then { info with hasUnixSockets := true }
  else if t.startsWith "anon_inode:[eventfd]" then { info with hasEventfd := true }
  else if t.startsWith "anon_inode:[signalfd]" then { info with hasSignalfd := true }
  else if t.startsWith "anon_inode:[timerfd]" then { info with hasTimerfd := true }
  else info

/-- `checkFileDescriptors` (process.go:109-135): an unreadable fd directory
returns silently; entries whose link fails to read are skipped, so
`fdLinks` carries only the successfully read link targets. -/
def checkFileDescriptors (links : Option (List String)) (info : ProcessInfo) :
    ProcessInfo :=
  match links with
  | none => info
  | some ls => ls.foldl fdStep info

/-- One TCP table line has connection state ESTABLISHED (0x01)
(process.go:151-167). -/
def lineEstablished (line : List Char) : Bool :=
  let fs := goFields line
  if fs.length < 4 then false
  else
    match parseHexU32 (fs.getD 3 "") with
    | some 1 => true
    | _ => false

/-- `checkTCPConnections` scan over one table's content
(process.go:144-169): skip the header line (index 0) and empty lines; the
Go loop returns at the first established entry, which equals `any`. -/
def tcpHasEstablished (content : String) : Bool :=
  match splitKeep '\n' content.toList with
  | [] => false
  | _header :: rest => rest.any fun line => line ≠ [] && lineEstablished line

/-- `checkTCPConnections` applied to one (possibly unreadable) table. -/
def checkTCPConnections (content : Option String) (info : ProcessInfo) :
    ProcessInfo :=
  match content with
  | none => info
  | some s => if tcpHasEstablished s then { info with hasTCP := true } else info

/-- `checkUnixSockets` (process.go:171-181): any readable table with more
than one line marks the profile positive. -/
def checkUnixSockets (content : Option String) (info : ProcessInfo) :
    ProcessInfo :=
  match content with
  | none => info
  | some s =>
      if (splitKeep '\n' s.toList).length > 1 then
        { info with hasUnixSockets := true }
      else info

/-- `checkNetworkConnections` (process.go:137-142). -/
def checkNetworkConnections (env : ProcEnv) (info : ProcessInfo) : ProcessInfo :=
  checkUnixSockets env.unixContent
    (checkTCPConnections env.tcp6Content
      (checkTCPConnections env.tcpContent info))

/-- `analyzeProcess` (process.go:26-43): fails only when
`validateProcessExists` reports the stat entry missing; every other
inspection failure degrades to defaults. -/
def analyzeProcess (env : ProcEnv) : Except String ProcessInfo :=
  if env.statExists then
    let info : ProcessInfo :=
      { pid := env.pid
        state := getProcessState env
        processName := getProcessName env }
    .ok (checkNetworkConnections env (checkFileDescriptors env.fdLinks info))
  else
    .error "process does not exist"

/-- `isShellJob` (process.go:219-224): process group id equals session id. -/
def isShellJob (env : ProcEnv) : Bool :=
  env.pgid == env.sid

/-! ## CRIU option sets (go-criu `rpc.CriuOpts`, fields used by this repo)

Proto pointer fields are modelled as `Option`; a `none` is a field the Go
code never set, i.e. left at the engine default.  `ManageCgroupsMode` is a
proto enum (`CriuCgMode`); it is modelled by its numeric wire value. -/

structure CriuOpts where
  pid : Option Int := none
  imagesDirFd : Option Int := none
  logLevel : Option Int := none
  logFile : Option String := none
  leaveRunning : Option Bool := none
  tcpEstablished : Option Bool := none
  extUnixSk : Option Bool := none
  shellJob : Option Bool := none
  fileLocks : Option Bool := none
  ghostLimit : Option Nat := none
  manageCgroups : Option Bool := none
  trackMem : Option Bool := none
  linkRemap : Option Bool := none
  workDirFd : Option Int := none
  orphanPtsMaster : Option Bool := none
  extMasters : Option Bool := none
  skipMnt : List String := []
  enableFs : List String := []
  manageCgroupsMode : Option Nat := none
  autoDedup : Option Bool := none
  external : List String := []
  autoExtMnt : Option Bool := none
  extMountMap : Option String := none
  forceIrmap : Option Bool := none
  rstSibling : Option Bool := none
deriving DecidableEq

/-- `CriuCgMode.IGNORE` of the go-criu rpc enum (`criu_cg_mode`:
IGNORE = 0, CG_NONE = 1, PROPS = 2, SOFT = 3, FULL = 4, STRICT = 5,
DEFAULT = 6).  `restore.go` writes `rpc.CriuCgMode_IGNORE.Enum()`. -/
def criuCgModeIgnore : Nat := 0

/-- The `if info.HasTCP` statement of `prepareProcessForDump`
(process.go:200-202). -/
def applyTcpRefine (info : ProcessInfo) (opts : CriuOpts) : CriuOpts :=
  if info.hasTCP then { opts with tcpEstablished := some true } else opts

/-- The `if info.HasUnixSockets` statement of `prepareProcessForDump`
(process.go:204-206). -/
def applyUnixRefine (info : ProcessInfo) (opts : CriuOpts) : CriuOpts :=
  if info.hasUnixSockets then { opts with extUnixSk := some true } else opts

/-- The `if opts.ShellJob == nil` statement of `prepareProcessForDump`
(process.go:208-214). -/
def applyShellJobDefault (env : ProcEnv) (opts : CriuOpts) : CriuOpts :=
  if opts.shellJob = none then { opts with shellJob := some (isShellJob env) }
  else opts

/-- `prepareProcessForDump` (process.go:183-217): probe the process, refuse
zombies, then enable TCP/unix-socket handling per the profile and default
the shell-job flag when the caller left it unset. -/
def prepareProcessForDump (env : ProcEnv) (opts : CriuOpts) :
    Except String CriuOpts :=
  match analyzeProcess env with
  | .error e => .error ("failed to analyze process: " ++ e)
  | .ok info =>
      if info.state = "zombie" then .error "cannot checkpoint zombie process"
      else .ok (applyShellJobDefault env (applyUnixRefine info (applyTcpRefine info opts)))

/-- `prepareProcessForRestore` (process.go:226-232). -/
def prepareProcessForRestore (opts : CriuOpts) : CriuOpts :=
  { opts with
      tcpEstablished := some true
      extUnixSk := some true
      shellJob := some false }

/-- Docker-aware base dump options of `checkpointDockerProcess`
(checkpoint_docker.go:81-102), before `prepareProcessForDump` refines
them. -/
def dockerCheckpointOpts (pid imageDirFd : Int) : CriuOpts :=
  { pid := some pid
    imagesDirFd := some imageDirFd
    logLevel := some 4
    logFile := some "dump.log"
    leaveRunning := some true
    ghostLimit := some 10000000
    external := ["mnt[]:m", "mnt[/proc/sys]:m", "mnt[/proc/sysrq-trigger]:m",
                 "mnt[/proc/irq]:m", "mnt[/proc/bus]:m", "mnt[/sys/firmware]:m",
                 "dev[]"]
    autoExtMnt := some true
    extMountMap := some "/proc/mounts"
    forceIrmap := some true }

/-- Option set of the minimal-options fallback
(`checkpointWithMinimalOptions`, checkpoint_docker.go:157-167).  Note that
it is built without consulting the capability profile:
`prepareProcessForDump` is not called on it. -/
def minimalDumpOpts (pid imageDirFd : Int) : CriuOpts :=
  { pid := some pid
    imagesDirFd := some imageDirFd
    logLevel := some 4
    logFile := some "dump-minimal.log"
    leaveRunning := some true
    external := ["mnt[]"] }

/-- Dump options of `checkpointContainer` (checkpoint.go:84-107).
`ManageCgroupsMode` is written there as the raw value `proto.Uint32(2)`
(which is PROPS in the rpc enum) although the adjacent comment says
`CG_MODE_IGNORE`. -/
def checkpointContainerOpts (pid imageDirFd : Int) : CriuOpts :=
  { pid := some pid
    imagesDirFd := some imageDirFd
    logLevel := some 4
    logFile := some "criu-dump.log"
    leaveRunning := some false
    tcpEstablished := some true
    extUnixSk := some true
    shellJob := some false
    fileLocks := some true
    ghostLimit := some 1048576
    manageCgroups := some false
    trackMem := some false
    linkRemap := some true
    workDirFd := some imageDirFd
    orphanPtsMaster := some true
    extMasters := some true
    skipMnt := ["/etc/resolv.conf", "/etc/hostname", "/etc/hosts",
                "/dev/mqueue", "/proc/sys", "/proc/sysrq-trigger"]
    enableFs := ["overlay", "proc", "sysfs", "devtmpfs", "tmpfs"]
    manageCgroupsMode := some 2
    autoDedup := some false }

/-- Restore options of `restoreContainer` (restore.go:91-112). -/
def restoreContainerOpts (imageDirFd : Int) : CriuOpts :=
  { imagesDirFd := some imageDirFd
    logLevel := some 4
    logFile := some "criu-restore.log"
    tcpEstablished := some true
    extUnixSk := some true
    shellJob := some false
    fileLocks := some true
    manageCgroups := some false
    trackMem := some false
    linkRemap := some true
    workDirFd := some imageDirFd
    orphanPtsMaster := some true
    extMasters := some true
    skipMnt := ["/etc/resolv.conf", "/etc/hostname", "/etc/hosts",
                "/dev/mqueue", "/proc/sys", "/proc/sysrq-trigger"]
    enableFs := ["overlay", "proc", "sysfs", "devtmpfs", "tmpfs"]
    manageCgroupsMode := some criuCgModeIgnore
    autoDedup := some false
    rstSibling := some false }

/-- Restore options of `restoreProcessDirect` (criu_direct.go:494-509). -/
def restoreProcessDirectOpts (imageDirFd : Int) : CriuOpts :=
  { imagesDirFd := some imageDirFd
    logLevel := some 4
    logFile := some "restore.log"
    tcpEstablished := some true
    extUnixSk := some true
    shellJob := some false
    external := ["mnt[]", "net[]"]
    rstSibling := some false }

/-- Base dump options of `checkpointSimpleProcess`
(src/unnamed/part_002:104-109), before `prepareProcessForDump` refines
them; `LeaveRunning` is never set on this path. -/
def simpleProcessOpts (pid imageDirFd : Int) : CriuOpts :=
  { pid := some pid
    imagesDirFd := some imageDirFd
    logLevel := some 4
    logFile := some "dump.log" }

/-! ## Checkpoint orchestration (src/checkpoint_docker.go) -/

/-- The two direct-engine strategies of the fallback chain, labelling the
two engine invocation sites of checkpoint_docker.go. -/
inductive Strategy where
  | directContainerAware
  | directMinimal
deriving DecidableEq

/-- Engine-side environment for one orchestrated checkpoint: availability
of the CRIU binary, the swrk preparation and the directory handles, plus
the engine's verdict on each option set it is handed. -/
structure EngineEnv where
  versionOk : Bool
  prepareOk : Bool
  dirOpenOk : Bool
  minPrepareOk : Bool
  minDirOpenOk : Bool
  imageDirFd : Int
  dumpOk : CriuOpts → Bool

/-- Result of an orchestrated checkpoint: the ordered engine dump attempts
and the overall outcome. -/
structure CheckpointTrace where
  dumps : List Strategy
  result : Except String Unit

/-- `checkpointWithMinimalOptions` (checkpoint_docker.go:139-182): one
last-resort dump with `minimalDumpOpts`, no further fallback. -/
def checkpointWithMinimalOptions (eng : EngineEnv) (pid : Int) : CheckpointTrace :=
  if eng.minPrepareOk then
    if eng.minDirOpenOk then
      if eng.dumpOk (minimalDumpOpts pid eng.imageDirFd) then
        { dumps := [.directMinimal], result := .ok () }
      else
        { dumps := [.directMinimal]
          result := .error "checkpoint failed even with minimal options" }
    else { dumps := [], result := .error "failed to open checkpoint directory" }
  else { dumps := [], result := .error "failed to prepare CRIU" }

/-- `checkpointDockerProcess` (checkpoint_docker.go:60-137): version check,
prepare, open directory, profile-driven option building, Docker-aware dump;
on dump failure fall back once to `checkpointWithMinimalOptions`. -/
def checkpointDockerProcess (eng : EngineEnv) (penv : ProcEnv) (pid : Int) :
    CheckpointTrace :=
  if eng.versionOk then
    if eng.prepareOk then
      if eng.dirOpenOk then
        match prepareProcessForDump penv (dockerCheckpointOpts pid eng.imageDirFd) with
        | .error e =>
            { dumps := [], result := .error ("failed to prepare process for dump: " ++ e) }
        | .ok opts =>
            if eng.dumpOk opts then
              { dumps := [.directContainerAware], result := .ok () }
            else
              let fb := checkpointWithMinimalOptions eng pid
              { dumps := .directContainerAware :: fb.dumps, result := fb.result }
      else { dumps := [], result := .error "failed to open checkpoint directory" }
    else { dumps := [], result := .error "failed to prepare CRIU" }
  else
    { dumps := []
      result := .error "failed to get CRIU version (is CRIU installed?)" }

/-! ## Checkpoint metadata (container.info) -/

/-- The metadata record written by `checkpointContainer` (checkpoint.go:52-56)
and `checkpointDockerContainer` (checkpoint_docker.go:46-50):
`fmt.Sprintf("CONTAINER_ID=%s\nCONTAINER_NAME=%s\nIMAGE=%s\nPID=%d\n", ...)`. -/
def containerMetadata (containerID containerName image : String) (pid : Nat) :
    String :=
  "CONTAINER_ID=" ++ containerID ++ "\n" ++
  "CONTAINER_NAME=" ++ containerName ++ "\n" ++
  "IMAGE=" ++ image ++ "\n" ++
  "PID=" ++ natToDecimal pid ++ "\n"

/-- `splitLines` (restore.go:194-211): split on newlines, dropping empty
segments. -/
def splitLinesAux : List Char → List Char → List (List Char)
  | [], cur => if cur = [] then [] else [cur.reverse]
  | c :: cs, cur =>
      if c = '\n' then
        if cur = [] then splitLinesAux cs []
        else cur.reverse :: splitLinesAux cs []
      else splitLinesAux cs (c :: cur)

def splitLines (s : String) : List String :=
  (splitLinesAux s.toList []).map String.mk

/-- One iteration of the metadata-parsing loop in `restoreContainer`
(restore.go:32-40).  The accumulator is `(originalImage, originalPID)`,
initially `("", 0)`.  Go's `len(line) > 6 && line[:6] == "IMAGE="` is the
guarded-slice check embedded here as a length bound plus a starts-with
test. -/
def parseMetaStep (acc : String × Int) (line : String) : String × Int :=
  if 6 < line.toList.length ∧ startsWithL line.toList "IMAGE=".toList = true then
    (String.mk (line.toList.drop 6), acc.2)
  else if 4 < line.toList.length ∧ startsWithL line.toList "PID=".toList = true then
    match goAtoi? (String.mk (line.toList.drop 4)) with
    | some n => (acc.1, n)
    | none => acc
  else acc

/-- The metadata load of `restoreContainer` (restore.go:27-40): the
`(originalImage, originalPID)` pair recovered from `container.info`. -/
def parseRestoreMetadata (content : String) : String × Int :=
  (splitLines content).foldl parseMetaStep ("", 0)

/-- The `KEY` part of each `KEY=VALUE` line of a metadata record (what any
reader of the line-oriented format can possibly recover). -/
def metadataKeys (content : String) : List String :=
  (splitLinesAux content.toList []).map fun l => String.mk (l.takeWhile (· ≠ '='))

/-! ## Restore orchestration (src/restore.go, src/main.go) -/

/-- Container-runtime operations `restoreContainer` can perform, in the
vocabulary of the spec's TargetReconciliation step. -/
inductive DockerAction where
  | inspect
  | stop
  | remove
  | create
  | start
  | listContainers
deriving DecidableEq

/-- Environment of one restore invocation: the metadata file contents
(`none` when absent or unreadable), the Docker and CRIU availability, and
the engine's verdict on the restore options. -/
structure RestoreEnv where
  metadata : Option String
  dockerClientOk : Bool
  containerExists : Bool
  containerRunning : Bool
  stopOk : Bool
  dirReadable : Bool
  versionOk : Bool
  prepareOk : Bool
  dirOpenOk : Bool
  imageDirFd : Int
  restoreOk : CriuOpts → Bool

/-- Result of one restore invocation: the container-runtime operations
performed, in order, and the overall outcome. -/
structure RestoreTrace where
  actions : List DockerAction
  result : Except String Unit

/-- `stopContainer` (restore.go:214-235): inspect; a missing container is
fine; a running one is stopped with a 10s grace period. -/
def stopContainerM (env : RestoreEnv) : List DockerAction × Except String Unit :=
  if env.containerExists then
    if env.containerRunning then
      if env.stopOk then ([.inspect, .stop], .ok ())
      else ([.inspect, .stop], .error "failed to stop container")
    else ([.inspect], .ok ())
  else ([.inspect], .ok ())

/-- `restoreContainer` (restore.go:19-154): metadata load first (hard
failure when absent), then best-effort stop of an existing container, the
CRIU restore with `restoreContainerOpts`, and a best-effort post-restore
container listing. -/
def restoreContainer (env : RestoreEnv) : RestoreTrace :=
  match env.metadata with
  | none => { actions := [], result := .error "failed to read metadata file" }
  | some _content =>
      let stopActs := if env.dockerClientOk then (stopContainerM env).1 else []
      if env.dirReadable then
        if env.versionOk then
          if env.prepareOk then
            if env.dirOpenOk then
              if env.restoreOk (restoreContainerOpts env.imageDirFd) then
                { actions :=
                    stopActs ++ if env.dockerClientOk then [.listContainers] else []
                  result := .ok () }
              else { actions := stopActs, result := .error "CRIU restore failed" }
            else
              { actions := stopActs
                result := .error "failed to open checkpoint directory" }
          else { actions := stopActs, result := .error "failed to prepare CRIU" }
        else { actions := stopActs, result := .error "failed to get CRIU version" }
      else
        { actions := stopActs, result := .error "failed to read checkpoint directory" }

/-- The `restore` branch of `main` (main.go:42-64): print the error and
exit 1 on failure, exit 0 on success. -/
def mainRestoreExit (env : RestoreEnv) : Nat :=
  match (restoreContainer env).result with
  | .ok _ => 0
  | .error _ => 1

/-! ## Lifecycle callbacks (src/notify.go) -/

/-- `NotifyHandler` (notify.go:10-16).  `logTag` is the source's log-line
marker field. -/
structure NotifyHandler where
  preDumpScript : String := ""
  postDumpScript : String := ""
  preRestoreScript : String := ""
  logTag : String := "[CRIU Notify]"
  verbose : Bool := false

/-- What the filesystem and shell report about hook scripts: whether the
file exists, and the exit status of `/bin/sh <script>` once spawned
(0 = success). -/
structure ScriptEnv where
  scriptFileExists : String → Bool
  scriptExitCode : String → Nat

/-- `executeScript` (notify.go:103-124): a missing script file is a no-op;
otherwise spawn and propagate a non-zero exit as failure. -/
def executeScript (env : ScriptEnv) (script phase : String) : Except String Unit :=
  if env.scriptFileExists script then
    if env.scriptExitCode script = 0 then .ok ()
    else .error (phase ++ " script failed")
  else .ok ()

/-- `NotifyHandler.PreDump` (notify.go:25-35). -/
def NotifyHandler.PreDump (h : NotifyHandler) (env : ScriptEnv) :
    Except String Unit :=
  if h.preDumpScript ≠ "" then executeScript env h.preDumpScript "PreDump"
  else .ok ()

/-- `NotifyHandler.PostDump` (notify.go:37-47). -/
def NotifyHandler.PostDump (h : NotifyHandler) (env : ScriptEnv) :
    Except String Unit :=
  if h.postDumpScript ≠ "" then executeScript env h.postDumpScript "PostDump"
  else .ok ()

/-- `NotifyHandler.PreRestore` (notify.go:49-59). -/
def NotifyHandler.PreRestore (h : NotifyHandler) (env : ScriptEnv) :
    Except String Unit :=
  if h.preRestoreScript ≠ "" then executeScript env h.preRestoreScript "PreRestore"
  else .ok ()

/-- `NotifyHandler.PostRestore` (notify.go:61-66): log-only, always nil. -/
def NotifyHandler.PostRestore (_h : NotifyHandler) (_pid : Int) :
    Except String Unit := .ok ()

/-- `NotifyHandler.NetworkLock` (notify.go:68-73). -/
def NotifyHandler.NetworkLock (_h : NotifyHandler) : Except String Unit := .ok ()

/-- `NotifyHandler.NetworkUnlock` (notify.go:75-80). -/
def NotifyHandler.NetworkUnlock (_h : NotifyHandler) : Except String Unit := .ok ()

/-- `NotifyHandler.SetupNamespaces` (notify.go:82-87). -/
def NotifyHandler.SetupNamespaces (_h : NotifyHandler) (_pid : Int) :
    Except String Unit := .ok ()

/-- `NotifyHandler.PostSetupNamespaces` (notify.go:89-94). -/
def NotifyHandler.PostSetupNamespaces (_h : NotifyHandler) :
    Except String Unit := .ok ()

/-- `NotifyHandler.PostResume` (notify.go:96-101). -/
def NotifyHandler.PostResume (_h : NotifyHandler) : Except String Unit := .ok ()

/-! ## Concrete test fixtures -/

/-- A `/proc/<pid>/net/tcp` table with one ESTABLISHED (state 01) entry. -/
def tcpTableEstablished : String :=
  "  sl  local rem st tx\n   0: 0100007F:1F90 0100007F:0050 01 00000000\n"

/-- A sleeping process with one established TCP connection and nothing
else readable. -/
def envSleepTcp : ProcEnv :=
  { pid := 5
    statExists := true
    statContent := some "5 (sleep) S 1 5 5 0 -1"
    cmdline := some "sleep\x003600\x00"
    fdLinks := none
    tcpContent := some tcpTableEstablished
    tcp6Content := none
    unixContent := none
    pgid := 1
    sid := 2 }

/-- The profile `analyzeProcess` computes for `envSleepTcp`. -/
def infoSleepTcp : ProcessInfo :=
  { pid := 5, hasTCP := true, processName := "sleep", state := "sleeping" }

/-- A zombie process (stat state code `Z`). -/
def envZombie : ProcEnv :=
  { pid := 7
    statExists := true
    statContent := some "7 (defunct) Z 1 7 7 0 -1"
    cmdline := none
    fdLinks := none
    tcpContent := none
    tcp6Content := none
    unixContent := none
    pgid := 7
    sid := 7 }

/-- A process whose stat entry exists but every inspection read fails. -/
def envAllUnreadable : ProcEnv :=
  { pid := 9
    statExists := true
    statContent := none
    cmdline := none
    fdLinks := none
    tcpContent := none
    tcp6Content := none
    unixContent := none
    pgid := 1
    sid := 1 }

/-- An engine that is installed and prepared but rejects every dump. -/
def engFailBoth : EngineEnv :=
  { versionOk := true
    prepareOk := true
    dirOpenOk := true
    minPrepareOk := true
    minDirOpenOk := true
    imageDirFd := 3
    dumpOk := fun _ => false }

/-- A fully available engine that accepts every dump. -/
def engAllOk : EngineEnv :=
  { versionOk := true
    prepareOk := true
    dirOpenOk := true
    minPrepareOk := true
    minDirOpenOk := true
    imageDirFd := 3
    dumpOk := fun _ => true }

/-- The Docker-aware options after `prepareProcessForDump` refined them for
`envSleepTcp`. -/
def preparedSleepOpts : CriuOpts :=
  { dockerCheckpointOpts 5 3 with tcpEstablished := some true, shellJob := some false }

/-- The simple-process options after `prepareProcessForDump` refined them
for `envSleepTcp`. -/
def preparedSimpleOpts : CriuOpts :=
  { simpleProcessOpts 5 3 with tcpEstablished := some true, shellJob := some false }

/-- A restore environment whose checkpoint directory has no readable
metadata file, everything else healthy. -/
def envNoMetadata : RestoreEnv :=
  { metadata := none
    dockerClientOk := true
    containerExists := true
    containerRunning := true
    stopOk := true
    dirReadable := true
    versionOk := true
    prepareOk := true
    dirOpenOk := true
    imageDirFd := 3
    restoreOk := fun _ => true }

/-! ## Helper lemmas -/

theorem fdStep_state (i : ProcessInfo) (t : String) : (fdStep i t).state = i.state := by
  unfold fdStep
  repeat' split
  all_goals rfl

theorem fdStep_hasTCP (i : ProcessInfo) (t : String) :
    (fdStep i t).hasTCP = i.hasTCP := by
  unfold fdStep
  repeat' split
  all_goals rfl

theorem foldl_fdStep_state (ls : List String) :
    ∀ i : ProcessInfo, (ls.foldl fdStep i).state = i.state := by
  induction ls with
  | nil => intro i; rfl
  | cons t ts ih => intro i; rw [List.foldl_cons, ih, fdStep_state]

theorem foldl_fdStep_hasTCP (ls : List String) :
    ∀ i : ProcessInfo, (ls.foldl fdStep i).hasTCP = i.hasTCP := by
  induction ls with
  | nil => intro i; rfl
  | cons t ts ih => intro i; rw [List.foldl_cons, ih, fdStep_hasTCP]

theorem checkFileDescriptors_state (links : Option (List String)) (i : ProcessInfo) :
    (checkFileDescriptors links i).state = i.state := by
  cases links with
  | none => rfl
  | some ls => exact foldl_fdStep_state ls i

theorem checkFileDescriptors_hasTCP (links : Option (List String)) (i : ProcessInfo) :
    (checkFileDescriptors links i).hasTCP = i.hasTCP := by
  cases links with
  | none => rfl
  | some ls => exact foldl_fdStep_hasTCP ls i

theorem checkTCPConnections_state (c : Option String) (i : ProcessInfo) :
    (checkTCPConnections c i).state = i.state := by
  cases c with
  | none => rfl
  | some s =>
      show (if tcpHasEstablished s = true then { i with hasTCP := true } else i).state
        = i.state
      split <;> rfl

theorem checkUnixSockets_state (c : Option String) (i : ProcessInfo) :
    (checkUnixSockets c i).state = i.state := by
  cases c with
  | none => rfl
  | some s =>
      show (if (splitKeep '\n' s.toList).length > 1 then { i with hasUnixSockets := true }
            else i).state = i.state
      split <;> rfl

theorem checkUnixSockets_hasTCP (c : Option String) (i : ProcessInfo) :
    (checkUnixSockets c i).hasTCP = i.hasTCP := by
  cases c with
  | none => rfl
  | some s =>
      show (if (splitKeep '\n' s.toList).length > 1 then { i with hasUnixSockets := true }
            else i).hasTCP = i.hasTCP
      split <;> rfl

theorem checkNetworkConnections_state (env : ProcEnv) (i : ProcessInfo) :
    (checkNetworkConnections env i).state = i.state := by
  unfold checkNetworkConnections
  rw [checkUnixSockets_state, checkTCPConnections_state, checkTCPConnections_state]

theorem analyzeProcess_eq_of_statExists (env : ProcEnv) (h : env.statExists = true) :
    analyzeProcess env =
      .ok (checkNetworkConnections env (checkFileDescriptors env.fdLinks
        { pid := env.pid
          state := getProcessState env
          processName := getProcessName env })) := by
  simp [analyzeProcess, h]

theorem analyzeProcess_ok_state (env : ProcEnv) (h : env.statExists = true) :
    ∃ info, analyzeProcess env = .ok info ∧ info.state = getProcessState env := by
  refine ⟨_, analyzeProcess_eq_of_statExists env h, ?_⟩
  rw [checkNetworkConnections_state, checkFileDescriptors_state]

theorem prepareProcessForDump_zombie (env : ProcEnv) (info : ProcessInfo)
    (h1 : analyzeProcess env = .ok info) (h2 : info.state = "zombie") :
    ∀ opts : CriuOpts,
      prepareProcessForDump env opts = .error "cannot checkpoint zombie process" := by
  intro opts
  unfold prepareProcessForDump
  rw [h1]
  simp [h2]

theorem prepareProcessForDump_ok_shape (env : ProcEnv) (info : ProcessInfo)
    (opts : CriuOpts) (h1 : analyzeProcess env = .ok info)
    (h2 : info.state ≠ "zombie") :
    prepareProcessForDump env opts =
      .ok (applyShellJobDefault env (applyUnixRefine info (applyTcpRefine info opts))) := by
  unfold prepareProcessForDump
  rw [h1]
  simp [h2]

theorem applyTcpRefine_leaveRunning (info : ProcessInfo) (opts : CriuOpts) :
    (applyTcpRefine info opts).leaveRunning = opts.leaveRunning := by
  unfold applyTcpRefine; split <;> rfl

theorem applyUnixRefine_leaveRunning (info : ProcessInfo) (opts : CriuOpts) :
    (applyUnixRefine info opts).leaveRunning = opts.leaveRunning := by
  unfold applyUnixRefine; split <;> rfl

theorem applyShellJobDefault_leaveRunning (env : ProcEnv) (opts : CriuOpts) :
    (applyShellJobDefault env opts).leaveRunning = opts.leaveRunning := by
  unfold applyShellJobDefault; split <;> rfl

theorem applyUnixRefine_tcpEstablished (info : ProcessInfo) (opts : CriuOpts) :
    (applyUnixRefine info opts).tcpEstablished = opts.tcpEstablished := by
  unfold applyUnixRefine; split <;> rfl

theorem applyShellJobDefault_tcpEstablished (env : ProcEnv) (opts : CriuOpts) :
    (applyShellJobDefault env opts).tcpEstablished = opts.tcpEstablished := by
  unfold applyShellJobDefault; split <;> rfl

theorem prepareProcessForDump_leaveRunning (env : ProcEnv) (opts o : CriuOpts)
    (h : prepareProcessForDump env opts = .ok o) :
    o.leaveRunning = opts.leaveRunning := by
  cases ha : analyzeProcess env with
  | error e => unfold prepareProcessForDump at h; rw [ha] at h; cases h
  | ok info =>
      by_cases hz : info.state = "zombie"
      · rw [prepareProcessForDump_zombie env info ha hz opts] at h; cases h
      · rw [prepareProcessForDump_ok_shape env info opts ha hz] at h
        cases h
        rw [applyShellJobDefault_leaveRunning, applyUnixRefine_leaveRunning,
          applyTcpRefine_leaveRunning]

theorem prepareProcessForDump_tcp (env : ProcEnv) (info : ProcessInfo)
    (opts o : CriuOpts) (h1 : analyzeProcess env = .ok info)
    (h2 : info.hasTCP = true) (h3 : prepareProcessForDump env opts = .ok o) :
    o.tcpEstablished = some true := by
  by_cases hz : info.state = "zombie"
  · rw [prepareProcessForDump_zombie env info h1 hz opts] at h3; cases h3
  · rw [prepareProcessForDump_ok_shape env info opts h1 hz] at h3
    cases h3
    rw [applyShellJobDefault_tcpEstablished, applyUnixRefine_tcpEstablished]
    unfold applyTcpRefine
    simp [h2]

/-! ## Claim theorems -/

/-- C5 counterexample: at a concrete directory handle, both restore paths
set `RstSibling` to `false` — the restored process is requested as a child
of the orchestrator, not as an independent (sibling-mode) process, so the
claim as stated is false. -/
theorem c5_counterexample :
    (restoreContainerOpts 3).rstSibling = some false ∧
    (restoreProcessDirectOpts 3).rstSibling = some false :=
  ⟨rfl, rfl⟩

/-- C5 amended: every restore invocation that reaches the engine call
passes options that explicitly request restoring the target as a child of
the orchestrator (`RstSibling = false`), in both `restoreContainer` and
`restoreProcessDirect`. -/
theorem c5_amended_restore_as_child (fd : Int) :
    (restoreContainerOpts fd).rstSibling = some false ∧
    (restoreProcessDirectOpts fd).rstSibling = some false :=
  ⟨rfl, rfl⟩

/-- C7: when the metadata file is absent or unreadable, `restoreContainer`
fails before performing any container-runtime operation (no inspect, stop,
remove, create or start), and the CLI restore branch exits 1. -/
theorem c7_missing_metadata_fails_first (env : RestoreEnv)
    (h : env.metadata = none) :
    (restoreContainer env).actions = [] ∧
    isOkE (restoreContainer env).result = false ∧
    mainRestoreExit env = 1 := by
  refine ⟨?_, ?_, ?_⟩ <;> simp [restoreContainer, mainRestoreExit, h, isOkE]

/-- C7 witness: the concrete no-metadata environment. -/
theorem c7_missing_metadata_fails_first_witness :
    (restoreContainer envNoMetadata).actions = [] ∧
    isOkE (restoreContainer envNoMetadata).result = false ∧
    mainRestoreExit envNoMetadata = 1 :=
  c7_missing_metadata_fails_first envNoMetadata rfl

/-- C8: the mirrored fields between the container-aware checkpoint options
(checkpoint.go) and the restore options (restore.go) — the mount-skip list,
filesystem allow-list and the TCP / unix-socket / file-lock / orphaned-pts
flags — are all equal, but the cgroup handling mode is NOT mirrored: the
checkpoint side writes the raw enum value 2 (PROPS) while its comment says
`CG_MODE_IGNORE`, and the restore side writes `CriuCgMode_IGNORE` (0).
This supports the code-bug verdict on the claim. -/
theorem c8_cgroup_mode_not_mirrored :
    (checkpointContainerOpts 5 3).skipMnt = (restoreContainerOpts 3).skipMnt ∧
    (checkpointContainerOpts 5 3).enableFs = (restoreContainerOpts 3).enableFs ∧
    (checkpointContainerOpts 5 3).tcpEstablished = (restoreContainerOpts 3).tcpEstablished ∧
    (checkpointContainerOpts 5 3).extUnixSk = (restoreContainerOpts 3).extUnixSk ∧
    (checkpointContainerOpts 5 3).fileLocks = (restoreContainerOpts 3).fileLocks ∧
    (checkpointContainerOpts 5 3).orphanPtsMaster = (restoreContainerOpts 3).orphanPtsMaster ∧
    (checkpointContainerOpts 5 3).manageCgroupsMode = some 2 ∧
    (restoreContainerOpts 3).manageCgroupsMode = some criuCgModeIgnore ∧
    (checkpointContainerOpts 5 3).manageCgroupsMode ≠
      (restoreContainerOpts 3).manageCgroupsMode := by
  refine ⟨rfl, rfl, rfl, rfl, rfl, rfl, rfl, rfl, ?_⟩
  decide

/-- Shared shape of the three scripted callbacks: a configured, existing
script that exits non-zero is the only failure mode. -/
theorem scriptedCallback_fails_iff (env : ScriptEnv) (script phase : String) :
    isOkE (if script ≠ "" then executeScript env script phase else .ok ()) = false ↔
      script ≠ "" ∧ env.scriptFileExists script = true ∧
        env.scriptExitCode script ≠ 0 := by
  by_cases hs : script = ""
  · simp [hs, isOkE]
  · by_cases he : env.scriptFileExists script
    · by_cases hc : env.scriptExitCode script = 0 <;>
        simp [hs, executeScript, he, hc, isOkE]
    · simp [hs, executeScript, he, isOkE]

/-- C9: each lifecycle callback of the notify handler is a no-op (returns
no error) when no script is configured or the script file does not exist,
and fails exactly when the spawned script exits non-zero; the remaining
callbacks are unconditional no-ops. -/
theorem c9_notify_callbacks (h : NotifyHandler) (env : ScriptEnv) (pid : Int) :
    (isOkE (h.PreDump env) = false ↔
      h.preDumpScript ≠ "" ∧ env.scriptFileExists h.preDumpScript = true ∧
        env.scriptExitCode h.preDumpScript ≠ 0) ∧
    (isOkE (h.PostDump env) = false ↔
      h.postDumpScript ≠ "" ∧ env.scriptFileExists h.postDumpScript = true ∧
        env.scriptExitCode h.postDumpScript ≠ 0) ∧
    (isOkE (h.PreRestore env) = false ↔
      h.preRestoreScript ≠ "" ∧ env.scriptFileExists h.preRestoreScript = true ∧
        env.scriptExitCode h.preRestoreScript ≠ 0) ∧
    isOkE (h.PostRestore pid) = true ∧
    isOkE h.NetworkLock = true ∧
    isOkE h.NetworkUnlock = true ∧
    isOkE (h.SetupNamespaces pid) = true ∧
    isOkE h.PostSetupNamespaces = true ∧
    isOkE h.PostResume = true :=
  ⟨scriptedCallback_fails_iff env h.preDumpScript "PreDump",
   scriptedCallback_fails_iff env h.postDumpScript "PostDump",
   scriptedCallback_fails_iff env h.preRestoreScript "PreRestore",
   rfl, rfl, rfl, rfl, rfl, rfl⟩

/-- C1 counterexample: a concrete process whose probed profile has
has-established-TCP = true, while the option set built by the
minimal-options fallback (`checkpointWithMinimalOptions`) leaves
`TcpEstablished` at the engine default (`nil`): that path never calls
`prepareProcessForDump`, so the claim fails on it. -/
theorem c1_counterexample :
    (analyzeProcess envSleepTcp = .ok infoSleepTcp ∧ infoSleepTcp.hasTCP = true) ∧
    (minimalDumpOpts 5 3).tcpEstablished = none :=
  ⟨⟨rfl, rfl⟩, rfl⟩

/-- C1 amended: the profile-driven path (`prepareProcessForDump`, used by
the Docker-aware attempt) does enable TCP handling whenever the profile
reports established TCP; the minimal-options fallback, however, builds its
option set without consulting the profile and leaves TCP handling at the
engine default. -/
theorem c1_amended_tcp_enabled_only_on_profile_path :
    (∀ (env : ProcEnv) (info : ProcessInfo) (opts o : CriuOpts),
        analyzeProcess env = .ok info → info.hasTCP = true →
        prepareProcessForDump env opts = .ok o → o.tcpEstablished = some true) ∧
    ∀ pid fd : Int, (minimalDumpOpts pid fd).tcpEstablished = none :=
  ⟨fun env info opts o h1 h2 h3 => prepareProcessForDump_tcp env info opts o h1 h2 h3,
   fun _ _ => rfl⟩

/-- C1 amended witness: the concrete sleeping process with an established
TCP connection, prepared for the Docker-aware dump. -/
theorem c1_amended_tcp_enabled_only_on_profile_path_witness :
    preparedSleepOpts.tcpEstablished = some true :=
  c1_amended_tcp_enabled_only_on_profile_path.1 envSleepTcp infoSleepTcp
    (dockerCheckpointOpts 5 3) preparedSleepOpts rfl rfl rfl

/-- C2: when the Docker-aware (DirectContainerAware) dump attempt fails
after a successful probe, exactly one further engine dump is attempted,
immediately next, with the DirectMinimal option set; if that dump also
fails the whole operation fails, and if it succeeds the operation
succeeds — there is never a third attempt. -/
theorem c2_fallback_exactly_one_minimal_attempt
    (eng : EngineEnv) (env : ProcEnv) (pid : Int) (opts : CriuOpts)
    (hv : eng.versionOk = true) (hp : eng.prepareOk = true)
    (ho : eng.dirOpenOk = true) (hmp : eng.minPrepareOk = true)
    (hmo : eng.minDirOpenOk = true)
    (hprep : prepareProcessForDump env (dockerCheckpointOpts pid eng.imageDirFd) = .ok opts)
    (hfail : eng.dumpOk opts = false) :
    (checkpointDockerProcess eng env pid).dumps =
      [.directContainerAware, .directMinimal] ∧
    (eng.dumpOk (minimalDumpOpts pid eng.imageDirFd) = false →
      isOkE (checkpointDockerProcess eng env pid).result = false) ∧
    (eng.dumpOk (minimalDumpOpts pid eng.imageDirFd) = true →
      isOkE (checkpointDockerProcess eng env pid).result = true) := by
  cases hmin : eng.dumpOk (minimalDumpOpts pid eng.imageDirFd) <;>
    simp [checkpointDockerProcess, checkpointWithMinimalOptions, hv, hp, ho, hmp,
      hmo, hprep, hfail, hmin, isOkE]

/-- C2 witness: concrete engine rejecting both dumps — the trace is exactly
the two strategies, and the operation fails. -/
theorem c2_fallback_exactly_one_minimal_attempt_witness :
    (checkpointDockerProcess engFailBoth envSleepTcp 5).dumps =
      [.directContainerAware, .directMinimal] ∧
    isOkE (checkpointDockerProcess engFailBoth envSleepTcp 5).result = false := by
  have h := c2_fallback_exactly_one_minimal_attempt engFailBoth envSleepTcp 5
    preparedSleepOpts rfl rfl rfl rfl rfl rfl rfl
  exact ⟨h.1, h.2.1 rfl⟩

/-- C3: a process that exists and whose stat state decodes to zombie is
probed successfully (profile state "zombie"), but `prepareProcessForDump`
rejects it for every option set, so the orchestrated checkpoint performs
no engine dump at all — under either strategy — and fails. -/
theorem c3_zombie_probed_but_refused (env : ProcEnv) (eng : EngineEnv) (pid : Int)
    (hex : env.statExists = true)
    (hz : getProcessState env = "zombie") :
    (∃ info, analyzeProcess env = .ok info ∧ info.state = "zombie") ∧
    (∀ opts : CriuOpts,
      prepareProcessForDump env opts = .error "cannot checkpoint zombie process") ∧
    (checkpointDockerProcess eng env pid).dumps = [] ∧
    isOkE (checkpointDockerProcess eng env pid).result = false := by
  obtain ⟨info, hinfo, hstate⟩ := analyzeProcess_ok_state env hex
  have hzs : info.state = "zombie" := hstate.trans hz
  have hprep := prepareProcessForDump_zombie env info hinfo hzs
  refine ⟨⟨info, hinfo, hzs⟩, hprep, ?_, ?_⟩ <;>
    · unfold checkpointDockerProcess
      rw [hprep (dockerCheckpointOpts pid eng.imageDirFd)]
      split
      · split
        · split <;> rfl
        · rfl
      · rfl

/-- C3 witness: the concrete zombie process against a fully available
engine. -/
theorem c3_zombie_probed_but_refused_witness :
    (checkpointDockerProcess engAllOk envZombie 7).dumps = [] ∧
    isOkE (checkpointDockerProcess engAllOk envZombie 7).result = false := by
  have h := c3_zombie_probed_but_refused envZombie engAllOk 7 rfl rfl
  exact ⟨h.2.2.1, h.2.2.2⟩

/-- C4 counterexample: the container checkpoint path explicitly sets
`LeaveRunning` to `false` (checkpoint.go:89), and the bare-process path
(`checkpointSimpleProcess`) never sets it at all (its prepared options
still carry `none`), so the claim that both paths leave the source running
by default is false. -/
theorem c4_counterexample :
    (checkpointContainerOpts 5 3).leaveRunning = some false ∧
    prepareProcessForDump envSleepTcp (simpleProcessOpts 5 3) = .ok preparedSimpleOpts ∧
    preparedSimpleOpts.leaveRunning = none :=
  ⟨rfl, rfl, rfl⟩

/-- C4 amended: the container checkpoint path (`checkpointContainer`)
explicitly disables leave-source-running, the bare-process path
(`checkpointSimpleProcess`) leaves it at the engine default (unset, and
`prepareProcessForDump` never touches it), while only the Docker-aware
direct path and its minimal fallback enable it. -/
theorem c4_amended_leave_running_per_path :
    (∀ pid fd : Int, (checkpointContainerOpts pid fd).leaveRunning = some false) ∧
    (∀ pid fd : Int, (simpleProcessOpts pid fd).leaveRunning = none) ∧
    (∀ (env : ProcEnv) (opts o : CriuOpts),
        prepareProcessForDump env opts = .ok o → o.leaveRunning = opts.leaveRunning) ∧
    (∀ pid fd : Int, (dockerCheckpointOpts pid fd).leaveRunning = some true) ∧
    (∀ pid fd : Int, (minimalDumpOpts pid fd).leaveRunning = some true) :=
  ⟨fun _ _ => rfl, fun _ _ => rfl,
   fun env opts o h => prepareProcessForDump_leaveRunning env opts o h,
   fun _ _ => rfl, fun _ _ => rfl⟩

/-- C4 amended witness: the prepared simple-process options at the concrete
environment still carry the unset leave-running flag. -/
theorem c4_amended_leave_running_per_path_witness :
    preparedSimpleOpts.leaveRunning = (simpleProcessOpts 5 3).leaveRunning :=
  c4_amended_leave_running_per_path.2.2.1 envSleepTcp (simpleProcessOpts 5 3)
    preparedSimpleOpts rfl

/-- C10: `analyzeProcess` fails exactly when the stat entry does not exist;
with the stat entry present, unreadable stat content yields state
"unknown", unreadable TCP tables leave has-established-TCP false, and with
every inspection read failing the returned profile is the all-default one
(state "unknown", every resource flag false, empty name). -/
theorem c10_probe_error_iff_stat_missing (env : ProcEnv) :
    (isOkE (analyzeProcess env) = env.statExists) ∧
    (env.statExists = true → env.statContent = none →
      ∃ info, analyzeProcess env = .ok info ∧ info.state = "unknown") ∧
    (env.statExists = true → env.tcpContent = none → env.tcp6Content = none →
      ∃ info, analyzeProcess env = .ok info ∧ info.hasTCP = false) ∧
    (env.statExists = true → env.statContent = none → env.cmdline = none →
      env.fdLinks = none → env.tcpContent = none → env.tcp6Content = none →
      env.unixContent = none →
      analyzeProcess env = .ok { pid := env.pid, state := "unknown" }) := by
  refine ⟨?_, ?_, ?_, ?_⟩
  · cases hs : env.statExists <;> simp [analyzeProcess, hs, isOkE]
  · intro hex hstat
    obtain ⟨info, hinfo, hstate⟩ := analyzeProcess_ok_state env hex
    exact ⟨info, hinfo, by rw [hstate, getProcessState, hstat]⟩
  · intro hex htcp htcp6
    refine ⟨_, analyzeProcess_eq_of_statExists env hex, ?_⟩
    rw [checkNetworkConnections, checkUnixSockets_hasTCP, htcp, htcp6]
    rw [show checkTCPConnections none
          (checkTCPConnections none
            (checkFileDescriptors env.fdLinks
              { pid := env.pid
                state := getProcessState env
                processName := getProcessName env })) =
        checkFileDescriptors env.fdLinks
          { pid := env.pid
            state := getProcessState env
            processName := getProcessName env } from rfl]
    rw [checkFileDescriptors_hasTCP]
  · intro hex hstat hcmd hfd htcp htcp6 hunix
    rw [analyzeProcess_eq_of_statExists env hex, getProcessState, hstat,
      getProcessName, hcmd, hfd, checkNetworkConnections, htcp, htcp6, hunix]
    rfl

/-- C10 witness: the process whose stat entry exists but every inspection
read fails. -/
theorem c10_probe_error_iff_stat_missing_witness :
    analyzeProcess envAllUnreadable = .ok { pid := 9, state := "unknown" } :=
  (c10_probe_error_iff_stat_missing envAllUnreadable).2.2.2 rfl rfl rfl rfl rfl rfl rfl

/-! ## Metadata round-trip lemmas (for C6) -/

theorem toList_append (a b : String) : (a ++ b).toList = a.toList ++ b.toList := rfl

theorem startsWithL_append_self (p rest : List Char) :
    startsWithL (p ++ rest) p = true := by
  induction p with
  | nil => cases rest <;> rfl
  | cons c cs ih => simp [startsWithL, ih]

theorem startsWithL_head_ne {c p : Char} (h : c ≠ p) (cs ps : List Char) :
    startsWithL (c :: cs) (p :: ps) = false := by
  simp [startsWithL, h]

theorem decDigitsVal?_append (xs : List Char) (c : Char) :
    ∀ acc, decDigitsVal? (xs ++ [c]) acc =
      (decDigitsVal? xs acc).bind fun v =>
        (decDigitVal? c).map fun d => v * 10 + d := by
  induction xs with
  | nil =>
      intro acc
      cases hd : decDigitVal? c <;> simp [decDigitsVal?, hd]
  | cons x xs ih =>
      intro acc
      cases hx : decDigitVal? x <;> simp [decDigitsVal?, hx, ih]

theorem decDigitVal?_digitChar (d : Nat) (h : d < 10) :
    decDigitVal? (Nat.digitChar d) = some d := by
  interval_cases d <;> decide

theorem toDecDigitsAux_val (fuel : Nat) :
    ∀ n acc, n ≤ fuel →
      decDigitsVal? (toDecDigitsAux fuel n) acc =
        some (acc * 10 ^ (toDecDigitsAux fuel n).length + n) := by
  induction fuel with
  | zero =>
      intro n acc h
      have hn : n = 0 := Nat.le_zero.mp h
      subst hn
      simp [toDecDigitsAux, decDigitsVal?]
  | succ f ih =>
      intro n acc h
      match n with
      | 0 => simp [toDecDigitsAux, decDigitsVal?]
      | m + 1 =>
          have hle : (m + 1) / 10 ≤ f := by
            have := Nat.div_lt_self (show 0 < m + 1 by omega) (show 1 < 10 by omega)
            omega
          rw [show toDecDigitsAux (f + 1) (m + 1) =
              toDecDigitsAux f ((m + 1) / 10) ++ [Nat.digitChar ((m + 1) % 10)] from rfl]
          rw [decDigitsVal?_append, ih ((m + 1) / 10) acc hle,
            decDigitVal?_digitChar ((m + 1) % 10) (Nat.mod_lt _ (by omega))]
          simp only [Option.bind_eq_bind, Option.some_bind, Option.map_some]
          refine congrArg some ?_
          have hdm : (m + 1) / 10 * 10 + (m + 1) % 10 = m + 1 := by omega
          calc (acc * 10 ^ (toDecDigitsAux f ((m + 1) / 10)).length + (m + 1) / 10) * 10
                + (m + 1) % 10
              = acc * (10 ^ (toDecDigitsAux f ((m + 1) / 10)).length * 10)
                + ((m + 1) / 10 * 10 + (m + 1) % 10) := by ring
            _ = acc * 10 ^ ((toDecDigitsAux f ((m + 1) / 10)).length + 1) + (m + 1) := by
                rw [hdm, pow_succ]
            _ = acc * 10 ^ (toDecDigitsAux f ((m + 1) / 10) ++
                  [Nat.digitChar ((m + 1) % 10)]).length + (m + 1) := by
                rw [List.length_append, List.length_singleton]

theorem decDigitsVal?_toDecList (n : Nat) :
    decDigitsVal? (toDecList n) 0 = some n := by
  by_cases h : n = 0
  · subst h; decide
  · rw [toDecList, if_neg h, toDecDigitsAux_val n n 0 le_rfl]
    simp

theorem toDecList_ne_nil (n : Nat) : toDecList n ≠ [] := by
  by_cases h : n = 0
  · subst h; decide
  · rw [toDecList, if_neg h]
    obtain ⟨m, rfl⟩ : ∃ m, n = m + 1 := ⟨n - 1, by omega⟩
    rw [show toDecDigitsAux (m + 1) (m + 1) =
        toDecDigitsAux m ((m + 1) / 10) ++ [Nat.digitChar ((m + 1) % 10)] from rfl]
    simp

theorem decDigitsVal?_mem_ne_none :
    ∀ (l : List Char) (acc v : Nat), decDigitsVal? l acc = some v →
      ∀ c ∈ l, decDigitVal? c ≠ none := by
  intro l
  induction l with
  | nil => intro acc v _ c hc; cases hc
  | cons x xs ih =>
      intro acc v h c hc
      cases hd : decDigitVal? x with
      | none => simp [decDigitsVal?, hd] at h
      | some d =>
          rcases List.mem_cons.mp hc with rfl | hmem
          · simp [hd]
          · exact ih (acc * 10 + d) v (by simpa [decDigitsVal?, hd] using h) c hmem

theorem goAtoi?_natToDecimal (n : Nat) :
    goAtoi? (natToDecimal n) = some (Int.ofNat n) := by
  have hval := decDigitsVal?_toDecList n
  have hne := toDecList_ne_nil n
  obtain ⟨c, cs, hl⟩ : ∃ c cs, toDecList n = c :: cs := by
    cases h2 : toDecList n with
    | nil => exact absurd h2 hne
    | cons c cs => exact ⟨c, cs, rfl⟩
  rw [hl] at hval
  rw [natToDecimal, hl]
  by_cases hp : c = '+'
  · subst hp
    have h43 : decDigitVal? '+' = none := by decide
    simp [decDigitsVal?, h43] at hval
  · by_cases hm : c = '-'
    · subst hm
      have h45 : decDigitVal? '-' = none := by decide
      simp [decDigitsVal?, h45] at hval
    · have hmk : (String.mk (c :: cs)).toList = c :: cs := rfl
      simp [goAtoi?, hmk, hp, hm, hval]

theorem splitLinesAux_no_nl (xs : List Char) (h : '\n' ∉ xs) :
    ∀ cs cur : List Char,
      splitLinesAux (xs ++ cs) cur = splitLinesAux cs (xs.reverse ++ cur) := by
  induction xs with
  | nil => intro cs cur; simp
  | cons x xs ih =>
      intro cs cur
      have hx : ¬x = '\n' := fun e => h (by simp [e])
      have h2 : '\n' ∉ xs := fun m => h (List.mem_cons_of_mem _ m)
      rw [show ((x :: xs) ++ cs) = x :: (xs ++ cs) from rfl]
      rw [show splitLinesAux (x :: (xs ++ cs)) cur = splitLinesAux (xs ++ cs) (x :: cur)
          from by simp [splitLinesAux, hx]]
      rw [ih h2 cs (x :: cur)]
      simp

theorem splitLinesAux_two (a b : List Char) (ha : '\n' ∉ a) (hb : '\n' ∉ b)
    (hne : a ≠ []) (cs : List Char) :
    splitLinesAux (a ++ (b ++ '\n' :: cs)) [] = (a ++ b) :: splitLinesAux cs [] := by
  rw [splitLinesAux_no_nl a ha _ [], splitLinesAux_no_nl b hb ('\n' :: cs) _]
  rw [show splitLinesAux ('\n' :: cs) (b.reverse ++ (a.reverse ++ [])) =
      (if (b.reverse ++ (a.reverse ++ [])) = [] then splitLinesAux cs []
       else (b.reverse ++ (a.reverse ++ [])).reverse :: splitLinesAux cs [])
      from by simp [splitLinesAux]]
  rw [if_neg (by simp [hne])]
  simp

theorem splitLines_containerMetadata (id name image : String) (pid : Nat)
    (hid : '\n' ∉ id.toList) (hname : '\n' ∉ name.toList)
    (himg : '\n' ∉ image.toList) :
    splitLinesAux (containerMetadata id name image pid).toList [] =
      ["CONTAINER_ID=".toList ++ id.toList,
       "CONTAINER_NAME=".toList ++ name.toList,
       "IMAGE=".toList ++ image.toList,
       "PID=".toList ++ toDecList pid] := by
  have hpidl : '\n' ∉ toDecList pid := by
    intro hmem
    exact decDigitsVal?_mem_ne_none (toDecList pid) 0 pid (decDigitsVal?_toDecList pid)
      '\n' hmem (by decide)
  have htl : (containerMetadata id name image pid).toList =
      "CONTAINER_ID=".toList ++ (id.toList ++ '\n' ::
        ("CONTAINER_NAME=".toList ++ (name.toList ++ '\n' ::
          ("IMAGE=".toList ++ (image.toList ++ '\n' ::
            ("PID=".toList ++ (toDecList pid ++ '\n' :: ([] : List Char)))))))) := by
    simp [containerMetadata, toList_append, natToDecimal, List.append_assoc,
      show "\n".toList = ['\n'] from rfl]
  rw [htl]
  rw [splitLinesAux_two _ _ (by decide) hid (by decide)]
  rw [splitLinesAux_two _ _ (by decide) hname (by decide)]
  rw [splitLinesAux_two _ _ (by decide) himg (by decide)]
  rw [splitLinesAux_two _ _ (by decide) hpidl (by decide)]
  rfl

theorem parseMetaStep_skip (acc : String × Int) (line : String)
    (h1 : startsWithL line.toList "IMAGE=".toList = false)
    (h2 : startsWithL line.toList "PID=".toList = false) :
    parseMetaStep acc line = acc := by
  have hn1 : ¬(6 < line.toList.length ∧
      startsWithL line.toList "IMAGE=".toList = true) := by
    intro hc
    rw [h1] at hc
    exact Bool.false_ne_true hc.2
  have hn2 : ¬(4 < line.toList.length ∧
      startsWithL line.toList "PID=".toList = true) := by
    intro hc
    rw [h2] at hc
    exact Bool.false_ne_true hc.2
  unfold parseMetaStep
  rw [if_neg hn1, if_neg hn2]

theorem parseMetaStep_image (acc : String × Int) (image : String)
    (himg : image.toList ≠ []) :
    parseMetaStep acc (String.mk ("IMAGE=".toList ++ image.toList)) =
      (image, acc.2) := by
  have hlen : 6 < ("IMAGE=".toList ++ image.toList).length := by
    rw [List.length_append, show ("IMAGE=".toList).length = 6 from rfl]
    have := List.length_pos.mpr himg
    omega
  have hp1 : 6 < (String.mk ("IMAGE=".toList ++ image.toList)).toList.length ∧
      startsWithL (String.mk ("IMAGE=".toList ++ image.toList)).toList
        "IMAGE=".toList = true :=
    ⟨hlen, startsWithL_append_self "IMAGE=".toList image.toList⟩
  unfold parseMetaStep
  rw [if_pos hp1]
  rfl

theorem parseMetaStep_pid (acc : String × Int) (pid : Nat) :
    parseMetaStep acc (String.mk ("PID=".toList ++ toDecList pid)) =
      (acc.1, Int.ofNat pid) := by
  have hsw1 : startsWithL ("PID=".toList ++ toDecList pid) "IMAGE=".toList = false :=
    startsWithL_head_ne (by decide) _ _
  have hn1 : ¬(6 < (String.mk ("PID=".toList ++ toDecList pid)).toList.length ∧
      startsWithL (String.mk ("PID=".toList ++ toDecList pid)).toList
        "IMAGE=".toList = true) := by
    intro hc
    have hc2 : startsWithL ("PID=".toList ++ toDecList pid) "IMAGE=".toList = true :=
      hc.2
    rw [hsw1] at hc2
    exact Bool.false_ne_true hc2
  have hlen : 4 < ("PID=".toList ++ toDecList pid).length := by
    rw [List.length_append, show ("PID=".toList).length = 4 from rfl]
    have := List.length_pos.mpr (toDecList_ne_nil pid)
    omega
  have hp2 : 4 < (String.mk ("PID=".toList ++ toDecList pid)).toList.length ∧
      startsWithL (String.mk ("PID=".toList ++ toDecList pid)).toList
        "PID=".toList = true :=
    ⟨hlen, startsWithL_append_self "PID=".toList (toDecList pid)⟩
  unfold parseMetaStep
  rw [if_neg hn1, if_pos hp2]
  rw [show String.mk ((String.mk ("PID=".toList ++ toDecList pid)).toList.drop 4) =
      natToDecimal pid from rfl]
  rw [goAtoi?_natToDecimal]

/-- C6 counterexample: the metadata record persisted by a successful
checkpoint holds exactly the keys CONTAINER_ID, CONTAINER_NAME, IMAGE and
PID — no strategy identifier exists in the record, so no load of it can
yield "the same strategy identifier that the successful checkpoint used";
the restore loader recovers only the image reference and the PID. -/
theorem c6_counterexample :
    metadataKeys (containerMetadata "abc123" "/web" "alpine:latest" 42) =
      ["CONTAINER_ID", "CONTAINER_NAME", "IMAGE", "PID"] ∧
    "STRATEGY" ∉ metadataKeys (containerMetadata "abc123" "/web" "alpine:latest" 42) ∧
    parseRestoreMetadata (containerMetadata "abc123" "/web" "alpine:latest" 42) =
      ("alpine:latest", 42) := by
  refine ⟨by decide, by decide, by decide⟩

/-- C6 amended: the write-then-load round-trip holds for the fields the
record actually carries: for any container id, name, non-empty image
reference and PID (none containing a newline), the `container.info` record
written by a successful checkpoint is loadable by `restoreContainer`'s
metadata parser and yields exactly the original image reference and PID.
No strategy identifier is persisted or recovered. -/
theorem c6_amended_metadata_roundtrip (id name image : String) (pid : Nat)
    (hid : '\n' ∉ id.toList) (hname : '\n' ∉ name.toList)
    (himg : '\n' ∉ image.toList) (himg0 : image.toList ≠ []) :
    parseRestoreMetadata (containerMetadata id name image pid) =
      (image, Int.ofNat pid) := by
  rw [parseRestoreMetadata, splitLines,
    splitLines_containerMetadata id name image pid hid hname himg]
  simp only [List.map_cons, List.map_nil, List.foldl_cons, List.foldl_nil]
  have e1 : parseMetaStep (("", 0) : String × Int)
      (String.mk ("CONTAINER_ID=".toList ++ id.toList)) = ("", 0) :=
    parseMetaStep_skip _ _ (startsWithL_head_ne (by decide) _ _)
      (startsWithL_head_ne (by decide) _ _)
  have e2 : parseMetaStep (("", 0) : String × Int)
      (String.mk ("CONTAINER_NAME=".toList ++ name.toList)) = ("", 0) :=
    parseMetaStep_skip _ _ (startsWithL_head_ne (by decide) _ _)
      (startsWithL_head_ne (by decide) _ _)
  rw [e1, e2, parseMetaStep_image _ image himg0, parseMetaStep_pid]

/-- C6 amended witness: a concrete record round-trips its image and PID. -/
theorem c6_amended_metadata_roundtrip_witness :
    parseRestoreMetadata (containerMetadata "deadbeef" "/nginx" "nginx:1.25" 90210) =
      ("nginx:1.25", Int.ofNat 90210) :=
  c6_amended_metadata_roundtrip "deadbeef" "/nginx" "nginx:1.25" 90210
    (by decide) (by decide) (by decide) (by decide)

end DockerCR
